import Mathlib

/-!
Shallow embedding of the newsletter subscriber lifecycle and broadcast
pipeline of the Cyber-Cloud-Kenya backend: the `Newsletter` mongoose model
(`Newsletter.js`), the mail service (`sendNewsletter`,
`sendNewsletterConfirmation`), the subscribe/unsubscribe routes and the
admin broadcast route.

Modelling conventions:
* a subscriber store is a `List Subscriber`; `find one` is first-match
  search, saving a found document back is first-match replacement;
* timestamps are `Nat`;
* the external mail gateway is a function producing `Except`:
  `Except.ok messageId` when `transporter.sendMail` resolves,
  `Except.error msg` when it rejects; for the broadcast loop the gateway
  also receives the position of the attempt, so that each recipient can
  succeed or fail independently;
* transporter creation (`createTransporter`) is an `Except String Unit`
  parameter: `.error e` models a throw before any recipient is attempted;
* input validation of the express-validator chains is modelled where a
  claim depends on it (interest vocabulary, target audience); the
  `isEmail`/`normalizeEmail` steps are not modelled: route inputs are
  taken to be the already-normalized field values.
-/

namespace Newsletter

/-- The fixed interest vocabulary (`Newsletter.js` enum, repeated in the
route validators). -/
def interestEnum : List String :=
  ["web-development", "graphic-design", "video-editing", "music-production",
   "online-jobs", "computer-packages", "robotics-ml", "cyber-security", "all"]

/-- The `targetAudience` vocabulary of the admin broadcast route. -/
def targetEnum : List String := ["all", "active", "specific-interest"]

/-- A subscriber record (fields of the `Newsletter` schema that the
lifecycle and broadcast pipeline touch). -/
structure Subscriber where
  email : String
  name : Option String
  interests : List String
  isActive : Bool
  subscriptionDate : Nat
  lastEmailSent : Option Nat
  emailCount : Nat
deriving Repr, DecidableEq

/-- Model of the mongoose query for one record by email: the first
record with the given email. -/
def findOne : List Subscriber → String → Option Subscriber
  | [], _ => none
  | s :: rest, email => if s.email = email then some s else findOne rest email

/-- Saving a found document back to the store: replace the first record
with the document's email. -/
def replaceByEmail : List Subscriber → Subscriber → List Subscriber
  | [], _ => []
  | t :: rest, s => if t.email = s.email then s :: rest else t :: replaceByEmail rest s

/-- The `pre('save')` hook of `Newsletter.js` as it acts on a new
document: an absent or empty interests list is coerced to `["all"]`.
(On saves of existing documents `this.isNew` is false and the hook does
nothing.) -/
def preSaveNew (s : Subscriber) : Subscriber :=
  if s.interests.isEmpty then { s with interests := ["all"] } else s

/-- JS `name || existing`: an absent or empty supplied name keeps the
existing one (the empty string is falsy). -/
def orSuppliedName (supplied old : Option String) : Option String :=
  match supplied with
  | some n => if n = "" then old else some n
  | none => old

/-- JS `interests || existing`: any supplied array — the empty array
included, since arrays are truthy — replaces the existing value; only an
absent value keeps it. -/
def orSuppliedInterests (supplied : Option (List String)) (old : List String) : List String :=
  match supplied with
  | some l => l
  | none => old

/-- Result of `transporter.sendMail` wrapped in its try/catch, as the
confirmation sender returns it: `success` plus messageId or error text. -/
structure MailResult where
  success : Bool
  info : String
deriving Repr, DecidableEq

/-- The confirmation sender of the mail service: transporter creation or
`sendMail` failure is caught and returned as `success := false`; the
function never throws. -/
def sendNewsletterConfirmation (transporter : Except String Unit)
    (gw : String → Except String String) (email : String) : MailResult :=
  match transporter with
  | .error e => ⟨false, e⟩
  | .ok _ =>
    match gw email with
    | .ok m => ⟨true, m⟩
    | .error e => ⟨false, e⟩

/-- Response of `POST /api/newsletter/subscribe` (validation aside). -/
inductive SubscribeResult where
  | alreadySubscribed
  | reactivated (email : String) (name : Option String) (interests : List String)
  | created (email : String) (name : Option String) (interests : List String)
deriving Repr, DecidableEq

/-- Route `POST /api/newsletter/subscribe`: create, reject, or reactivate, then
send a best-effort confirmation whose result is only logged. -/
def subscribe (db : List Subscriber) (now : Nat) (email : String)
    (name : Option String) (interests : Option (List String))
    (transporter : Except String Unit) (gw : String → Except String String) :
    SubscribeResult × List Subscriber :=
  match findOne db email with
  | some s =>
    if s.isActive then
      (.alreadySubscribed, db)
    else
      let s' : Subscriber :=
        { s with isActive := true,
                 name := orSuppliedName name s.name,
                 interests := orSuppliedInterests interests s.interests,
                 subscriptionDate := now }
      let db' := replaceByEmail db s'
      let _emailResult := sendNewsletterConfirmation transporter gw email
      (.reactivated s'.email s'.name s'.interests, db')
  | none =>
    let s := preSaveNew
      { email := email, name := name,
        interests := orSuppliedInterests interests ["all"],
        isActive := true, subscriptionDate := now,
        lastEmailSent := none, emailCount := 0 }
    let db' := db ++ [s]
    let _emailResult := sendNewsletterConfirmation transporter gw email
    (.created s.email s.name s.interests, db')

/-- Response of `POST /api/newsletter/unsubscribe`. -/
inductive UnsubscribeResult where
  | notFound
  | alreadyUnsubscribed
  | unsubscribed
deriving Repr, DecidableEq

/-- Route `POST /api/newsletter/unsubscribe`. -/
def unsubscribe (db : List Subscriber) (email : String) :
    UnsubscribeResult × List Subscriber :=
  match findOne db email with
  | none => (.notFound, db)
  | some s =>
    if s.isActive then
      (.unsubscribed, replaceByEmail db { s with isActive := false })
    else
      (.alreadyUnsubscribed, db)

/-- Per-recipient outcome of the broadcast loop. -/
inductive Outcome where
  | ok (email : String) (messageId : String)
  | failed (email : String) (error : String)
deriving Repr, DecidableEq

/-- The outcome's email field. -/
def Outcome.email : Outcome → String
  | .ok e _ => e
  | .failed e _ => e

/-- The outcome's success flag. -/
def Outcome.success : Outcome → Bool
  | .ok _ _ => true
  | .failed _ _ => false

/-- One iteration of the broadcast loop: the inner try/catch around
`transporter.sendMail` for the recipient at position `i`. -/
def attemptOne (gw : Nat → String → Except String String) (i : Nat)
    (email : String) : Outcome :=
  match gw i email with
  | .ok m => .ok email m
  | .error e => .failed email e

/-- The `for (const subscriber of subscribers)` loop of `sendNewsletter`,
starting at position `i`. -/
def sendLoop (gw : Nat → String → Except String String) :
    Nat → List String → List Outcome
  | _, [] => []
  | i, e :: rest => attemptOne gw i e :: sendLoop gw (i + 1) rest

/-- What `sendNewsletter` returns: the per-recipient outcome list on the
normal path, or — from the outer catch — a single object
`\x7bsuccess: false, error\x7d` that is not a list. -/
inductive SendResult where
  | outcomes (results : List Outcome)
  | fatal (error : String)
deriving Repr, DecidableEq

/-- The broadcast dispatcher of the mail service: create the transporter, then attempt
each recipient inside its own try/catch; a throw outside the loop hits the
outer catch and yields the non-list `fatal` value. -/
def sendNewsletter (transporter : Except String Unit)
    (gw : Nat → String → Except String String) (recipients : List String) :
    SendResult :=
  match transporter with
  | .error e => .fatal e
  | .ok _ => .outcomes (sendLoop gw 0 recipients)

/-- Static query `Newsletter.getActiveSubscribers`. -/
def getActiveSubscribers (db : List Subscriber) : List Subscriber :=
  db.filter (fun s => s.isActive)

/-- Static query `Newsletter.getSubscribersByInterest`:
`isActive` and (`interests` contains the interest or contains `"all"`). -/
def getSubscribersByInterest (db : List Subscriber) (interest : String) :
    List Subscriber :=
  db.filter (fun s =>
    s.isActive && (s.interests.contains interest || s.interests.contains "all"))

/-- The express-validator `optional().isIn(vocab)` check. -/
def validOptIn (vocab : List String) : Option String → Bool
  | none => true
  | some s => vocab.contains s

/-- Audience choice of the broadcast route:
`targetAudience === 'specific-interest' && interest` selects the interest
query, every other combination — a missing tag included — falls back to
all active subscribers. The empty string is falsy in JS, hence the inner
test. -/
def resolveAudience (db : List Subscriber) (targetAudience interest : Option String) :
    List Subscriber :=
  match targetAudience, interest with
  | some "specific-interest", some i =>
      if i = "" then getActiveSubscribers db else getSubscribersByInterest db i
  | _, _ => getActiveSubscribers db

/-- The validator chain of `POST /api/admin/newsletter/send`. -/
def broadcastValid (subject content : String) (targetAudience interest : Option String) :
    Bool :=
  decide (5 ≤ subject.length) && decide (subject.length ≤ 200) &&
  decide (10 ≤ content.length) && decide (content.length ≤ 10000) &&
  validOptIn targetEnum targetAudience && validOptIn interestEnum interest

/-- The successful entries of an outcome list. -/
def successfulResults (results : List Outcome) : List Outcome :=
  results.filter (fun r => r.success)

/-- The delivery-accounting `updateMany` of the broadcast route: every
record whose email is among the successful outcomes' emails gets
`emailCount` incremented by 1 and `lastEmailSent` set; all other records
are untouched. -/
def recordAccounting (db : List Subscriber) (results : List Outcome) (now : Nat) :
    List Subscriber :=
  let successEmails := (successfulResults results).map (fun r => r.email)
  db.map (fun s =>
    if successEmails.contains s.email then
      { s with emailCount := s.emailCount + 1, lastEmailSent := some now }
    else s)

/-- Response of `POST /api/admin/newsletter/send`. -/
inductive BroadcastResponse where
  | validationFailed
  | noSubscribers
  | sent (total successful failed : Nat)
  | serverError
deriving Repr, DecidableEq

/-- Route `POST /api/admin/newsletter/send`: validate, resolve the audience,
dispatch, account. When `sendNewsletter` returns its non-list `fatal`
value, the route's `results.filter` call throws a TypeError that the
route-level catch turns into a 500 server error, before any accounting. -/
def broadcastHandler (db : List Subscriber) (now : Nat) (subject content : String)
    (targetAudience interest : Option String)
    (transporter : Except String Unit) (gw : Nat → String → Except String String) :
    BroadcastResponse × List Subscriber :=
  if broadcastValid subject content targetAudience interest = false then
    (.validationFailed, db)
  else
    let subscribers := resolveAudience db targetAudience interest
    if subscribers.length = 0 then
      (.noSubscribers, db)
    else
      match sendNewsletter transporter gw (subscribers.map (fun s => s.email)) with
      | .fatal _ => (.serverError, db)
      | .outcomes results =>
        let db' := recordAccounting db results now
        (.sent subscribers.length (successfulResults results).length
          (results.filter (fun r => r.success = false)).length, db')

/-- The operations that mutate subscriber records. -/
inductive Op where
  | sub (now : Nat) (email : String) (name : Option String)
      (interests : Option (List String))
      (transporter : Except String Unit) (gw : String → Except String String)
  | unsub (email : String)
  | account (results : List Outcome) (now : Nat)

/-- Apply one operation to the store. -/
def applyOp (db : List Subscriber) : Op → List Subscriber
  | .sub now email name interests t g => (subscribe db now email name interests t g).2
  | .unsub email => (unsubscribe db email).2
  | .account results now => recordAccounting db results now

/-- Apply a sequence of operations to the store. -/
def runOps (db : List Subscriber) : List Op → List Subscriber
  | [] => db
  | op :: rest => runOps (applyOp db op) rest

/-! ### Store lemmas -/

theorem findOne_eq_some {db : List Subscriber} {email : String} {s : Subscriber}
    (h : findOne db email = some s) : s ∈ db ∧ s.email = email := by
  induction db with
  | nil => simp [findOne] at h
  | cons t rest ih =>
    by_cases he : t.email = email
    · simp only [findOne, if_pos he, Option.some.injEq] at h
      subst h
      exact ⟨List.mem_cons_self t rest, he⟩
    · simp only [findOne, if_neg he] at h
      obtain ⟨hm, heq⟩ := ih h
      exact ⟨List.mem_cons_of_mem t hm, heq⟩

theorem replaceByEmail_of_findOne {db : List Subscriber} {email : String}
    {s : Subscriber} (h : findOne db email = some s) (s' : Subscriber)
    (he : s'.email = s.email) :
    ∃ i, i < db.length ∧ db.get? i = some s ∧
      replaceByEmail db s' = db.set i s' := by
  induction db with
  | nil => simp [findOne] at h
  | cons t rest ih =>
    by_cases ht : t.email = email
    · simp only [findOne, if_pos ht, Option.some.injEq] at h
      subst h
      refine ⟨0, by simp, rfl, ?_⟩
      have : t.email = s'.email := by rw [he]
      simp [replaceByEmail, this.symm]
    · simp only [findOne, if_neg ht] at h
      obtain ⟨i, hi, hg, hr⟩ := ih h
      have hne : t.email ≠ s'.email := by
        rw [he, (findOne_eq_some h).2]
        exact ht
      refine ⟨i + 1, by simpa using hi, by simpa using hg, ?_⟩
      simp [replaceByEmail, hne, hr]

theorem mem_replaceByEmail {db : List Subscriber} {s' t : Subscriber}
    (h : t ∈ replaceByEmail db s') : t = s' ∨ t ∈ db := by
  induction db with
  | nil => simp [replaceByEmail] at h
  | cons u rest ih =>
    by_cases hu : u.email = s'.email
    · simp only [replaceByEmail, if_pos hu, List.mem_cons] at h
      rcases h with h | h
      · exact Or.inl h
      · exact Or.inr (List.mem_cons_of_mem u h)
    · simp only [replaceByEmail, if_neg hu, List.mem_cons] at h
      rcases h with h | h
      · exact Or.inr (by simp [h])
      · rcases ih h with h' | h'
        · exact Or.inl h'
        · exact Or.inr (List.mem_cons_of_mem u h')

theorem findOne_replaceByEmail {db : List Subscriber} {email : String}
    {s : Subscriber} (h : findOne db email = some s) {s' : Subscriber}
    (he : s'.email = s.email) :
    findOne (replaceByEmail db s') email = some s' := by
  induction db with
  | nil => simp [findOne] at h
  | cons t rest ih =>
    by_cases ht : t.email = email
    · simp only [findOne, if_pos ht, Option.some.injEq] at h
      subst h
      have h1 : t.email = s'.email := by rw [he]
      have h2 : s'.email = email := by rw [he, ht]
      have hrepl : replaceByEmail (t :: rest) s' = s' :: rest := by
        simp [replaceByEmail, h1]
      rw [hrepl]
      simp [findOne, h2]
    · simp only [findOne, if_neg ht] at h
      have hne : t.email ≠ s'.email := by
        rw [he, (findOne_eq_some h).2]
        exact ht
      simp [replaceByEmail, hne, findOne, ht, ih h]

/-! ### Dispatch loop lemmas -/

theorem sendLoop_length (gw : Nat → String → Except String String) :
    ∀ (recipients : List String) (k : Nat),
      (sendLoop gw k recipients).length = recipients.length := by
  intro recipients
  induction recipients with
  | nil => intro k; rfl
  | cons e rest ih => intro k; simp [sendLoop, ih (k + 1)]

theorem sendLoop_get? (gw : Nat → String → Except String String) :
    ∀ (recipients : List String) (k i : Nat),
      (sendLoop gw k recipients).get? i =
        (recipients.get? i).map (fun e => attemptOne gw (k + i) e) := by
  intro recipients
  induction recipients with
  | nil => intro k i; simp [sendLoop]
  | cons e rest ih =>
    intro k i
    cases i with
    | zero => simp [sendLoop]
    | succ j =>
      have := ih (k + 1) j
      simp only [sendLoop, List.get?_cons_succ, this]
      have harith : k + 1 + j = k + (j + 1) := by omega
      rw [harith]

/-! ### Claim theorems -/

/-- C1: for every recipient list and every pattern of per-recipient
gateway success/failure, `sendNewsletter` (with a working transporter)
returns a list with exactly one outcome per recipient, in input order;
the outcome at position `i` depends only on the gateway's behaviour for
the attempt at position `i` — so one recipient's failure never prevents
attempts on subsequent recipients — and is `ok email messageId` on
success, `failed email error` on failure. -/
theorem dispatch_outcome_per_recipient (gw : Nat → String → Except String String)
    (recipients : List String) :
    ∃ results, sendNewsletter (.ok ()) gw recipients = .outcomes results
      ∧ results.length = recipients.length
      ∧ (∀ i, results.get? i = (recipients.get? i).map (fun e => attemptOne gw i e))
      ∧ (∀ i e, recipients.get? i = some e →
          results.get? i = some (match gw i e with
            | .ok m => Outcome.ok e m
            | .error err => Outcome.failed e err)) := by
  refine ⟨sendLoop gw 0 recipients, rfl, sendLoop_length gw recipients 0, ?_, ?_⟩
  · intro i
    simpa using sendLoop_get? gw recipients 0 i
  · intro i e he
    have h := sendLoop_get? gw recipients 0 i
    rw [he] at h
    simpa [attemptOne] using h

/-- C1 witness: three concrete recipients, gateway failing exactly on the
second. -/
theorem dispatch_outcome_per_recipient_witness :
    ∃ results,
      sendNewsletter (.ok ())
          (fun i _ => if i = 1 then Except.error "boom" else Except.ok "mid")
          ["a@x.com", "b@x.com", "c@x.com"] = .outcomes results
      ∧ results.length = 3 := by
  obtain ⟨r, h1, h2, _, _⟩ := dispatch_outcome_per_recipient
    (fun i _ => if i = 1 then Except.error "boom" else Except.ok "mid")
    ["a@x.com", "b@x.com", "c@x.com"]
  exact ⟨r, h1, by rw [h2]; rfl⟩

/-- C8: a failure of the confirmation notification neither rolls back the
subscription state change nor fails the subscribe call: the whole result
of `subscribe` — response and stored records — is identical for every
transporter and gateway behaviour. -/
theorem confirmation_failure_no_rollback (db : List Subscriber) (now : Nat)
    (email : String) (name : Option String) (interests : Option (List String))
    (t1 t2 : Except String Unit) (g1 g2 : String → Except String String) :
    subscribe db now email name interests t1 g1 =
      subscribe db now email name interests t2 g2 := by
  unfold subscribe
  cases findOne db email with
  | none => rfl
  | some s => by_cases h : s.isActive <;> simp [h]

/-- C9: dispatching to an empty recipient list yields an empty outcome
list, and the result does not depend on the gateway at all — no send is
attempted for any address. -/
theorem dispatch_empty_no_gateway (gw gw2 : Nat → String → Except String String) :
    sendNewsletter (.ok ()) gw [] = .outcomes []
    ∧ sendNewsletter (.ok ()) gw [] = sendNewsletter (.ok ()) gw2 [] :=
  ⟨rfl, rfl⟩

/-- C10: when transporter creation throws before any recipient is
attempted, `sendNewsletter` returns the single non-list object
`fatal error` rather than an outcome list, and the broadcast route —
which applies `filter`/`map` to that value — ends in a 500 server error
instead of an outcome report, leaving the store untouched. -/
theorem transporter_failure_server_error (db : List Subscriber) (now : Nat)
    (subject content : String) (targetAudience interest : Option String)
    (gw : Nat → String → Except String String) (e : String)
    (hv : broadcastValid subject content targetAudience interest = true)
    (hne : resolveAudience db targetAudience interest ≠ []) :
    sendNewsletter (.error e) gw
        ((resolveAudience db targetAudience interest).map (fun s => s.email)) =
      .fatal e
    ∧ broadcastHandler db now subject content targetAudience interest
        (.error e) gw = (.serverError, db) := by
  refine ⟨rfl, ?_⟩
  unfold broadcastHandler
  have h0 : ¬((resolveAudience db targetAudience interest).length = 0) := by
    simpa [List.length_eq_zero] using hne
  simp [hv, h0, sendNewsletter]

/-- C10 witness: one active subscriber, valid request, broken
transporter. -/
theorem transporter_failure_server_error_witness :
    broadcastHandler
        [{ email := "a@x.com", name := none, interests := ["all"],
           isActive := true, subscriptionDate := 0, lastEmailSent := none,
           emailCount := 0 }]
        3 "Hello" "0123456789" (some "all") none
        (.error "createTransporter is not a function") (fun _ _ => .ok "mid") =
      (.serverError,
        [{ email := "a@x.com", name := none, interests := ["all"],
           isActive := true, subscriptionDate := 0, lastEmailSent := none,
           emailCount := 0 }]) :=
  (transporter_failure_server_error _ 3 "Hello" "0123456789" (some "all") none
    (fun _ _ => .ok "mid") "createTransporter is not a function"
    (by decide) (by decide)).2

/-- A one-subscriber store used for the C2 counterexample. -/
def c2db : List Subscriber :=
  [{ email := "a@x.com", name := none, interests := ["web-development"],
     isActive := true, subscriptionDate := 0, lastEmailSent := none,
     emailCount := 0 }]

/-- C2 counterexample: requesting `specific-interest` WITHOUT a tag does
not fail — the request passes validation, the audience silently falls
back to all active subscribers, and the newsletter is sent (here to a
subscriber whose interests do not even contain a matching tag). -/
theorem missing_tag_falls_back_counterexample :
    broadcastHandler c2db 5 "Hello" "0123456789" (some "specific-interest")
        none (.ok ()) (fun _ _ => .ok "mid") =
      (.sent 1 1 0,
        [{ email := "a@x.com", name := none, interests := ["web-development"],
           isActive := true, subscriptionDate := 0, lastEmailSent := some 5,
           emailCount := 1 }])
    ∧ resolveAudience c2db (some "specific-interest") none =
        getActiveSubscribers c2db := by
  constructor <;> rfl

/-- C2 as amended: a tag outside the fixed vocabulary makes the request
fail validation with no audience resolved and no state change; but
`specific-interest` WITHOUT a tag does not fail — audience resolution
falls back to all active subscribers. -/
theorem invalid_tag_rejected_missing_tag_falls_back (db : List Subscriber)
    (now : Nat) (subject content : String) (tag : String)
    (transporter : Except String Unit) (gw : Nat → String → Except String String)
    (hbad : interestEnum.contains tag = false) :
    broadcastHandler db now subject content (some "specific-interest") (some tag)
        transporter gw = (.validationFailed, db)
    ∧ resolveAudience db (some "specific-interest") none =
        getActiveSubscribers db := by
  constructor
  · unfold broadcastHandler
    have hbad' : tag ∉ interestEnum := by simpa using hbad
    have hvf : broadcastValid subject content (some "specific-interest")
        (some tag) = false := by
      simp [broadcastValid, validOptIn, hbad']
    simp [hvf]
  · rfl

/-- C2 witness: the amended theorem at a concrete out-of-vocabulary tag. -/
theorem invalid_tag_rejected_missing_tag_falls_back_witness :
    broadcastHandler c2db 5 "Hello" "0123456789" (some "specific-interest")
        (some "cooking") (.ok ()) (fun _ _ => .ok "mid") =
      (.validationFailed, c2db)
    ∧ resolveAudience c2db (some "specific-interest") none =
        getActiveSubscribers c2db :=
  invalid_tag_rejected_missing_tag_falls_back c2db 5 "Hello" "0123456789"
    "cooking" (.ok ()) (fun _ _ => .ok "mid") (by decide)

/-- C4: for every store and every tag in the vocabulary,
`getSubscribersByInterest` returns exactly the records with
`isActive = true` whose interests contain the tag or contain `"all"`;
and no inactive record is ever a member of any resolved audience. -/
theorem audience_active_and_interest_matched (db : List Subscriber)
    (tag : String) (htag : tag ∈ interestEnum) :
    (∀ s, s ∈ getSubscribersByInterest db tag ↔
        s ∈ db ∧ s.isActive = true ∧ (tag ∈ s.interests ∨ "all" ∈ s.interests))
    ∧ (∀ targetAudience interest : Option String,
        ∀ s, s ∈ resolveAudience db targetAudience interest → s.isActive = true) := by
  constructor
  · intro s
    simp [getSubscribersByInterest, List.mem_filter, and_assoc]
  · intro targetAudience interest s hs
    have hact : ∀ l : List Subscriber, s ∈ getActiveSubscribers l → s.isActive = true := by
      intro l hl
      exact (List.mem_filter.mp hl).2
    have hint : ∀ (l : List Subscriber) (x : String),
        s ∈ getSubscribersByInterest l x → s.isActive = true := by
      intro l x hl
      have hb := (List.mem_filter.mp hl).2
      simp only [Bool.and_eq_true] at hb
      exact hb.1
    unfold resolveAudience at hs
    split at hs
    · split at hs
      · exact hact db hs
      · exact hint db _ hs
    · exact hact db hs

/-- A concrete store for the C4 witness. -/
def c4db : List Subscriber :=
  [{ email := "a@x.com", name := none, interests := ["all"],
     isActive := true, subscriptionDate := 0, lastEmailSent := none,
     emailCount := 0 },
   { email := "b@x.com", name := none, interests := ["cyber-security"],
     isActive := false, subscriptionDate := 0, lastEmailSent := none,
     emailCount := 0 }]

/-- A concrete record for the C4 witness. -/
def c4sub : Subscriber :=
  { email := "a@x.com", name := none, interests := ["all"],
    isActive := true, subscriptionDate := 0, lastEmailSent := none,
    emailCount := 0 }

/-- C4 witness: the characterization at a concrete store, a concrete
record and the vocabulary tag `cyber-security`. -/
theorem audience_active_and_interest_matched_witness :
    c4sub ∈ getSubscribersByInterest c4db "cyber-security" ↔
      c4sub ∈ c4db ∧ c4sub.isActive = true ∧
        ("cyber-security" ∈ c4sub.interests ∨ "all" ∈ c4sub.interests) :=
  (audience_active_and_interest_matched c4db "cyber-security" (by decide)).1 c4sub

/-- Membership in the successful-emails list, unfolded. -/
theorem mem_successEmails {results : List Outcome} {e : String} :
    e ∈ (successfulResults results).map (fun r => r.email) ↔
      ∃ r ∈ results, r.email = e ∧ r.success = true := by
  simp only [successfulResults, List.mem_map, List.mem_filter]
  constructor
  · rintro ⟨r, ⟨hr, hs⟩, he⟩
    exact ⟨r, hr, he, hs⟩
  · rintro ⟨r, hr, he, hs⟩
    exact ⟨r, ⟨hr, hs⟩, he⟩

/-- C5: accounting over an outcome list with pairwise-distinct emails —
the shape every dispatch produces, since audiences come from a store with
unique emails — keeps the store's length, increments `emailCount` by
exactly 1 and sets `lastEmailSent` for precisely the records whose
outcome has `success = true`, and leaves every record whose outcome has
`success = false`, and every record with no outcome at all, completely
unchanged (same position, every field equal). -/
theorem accounting_updates_exactly_successes (db : List Subscriber)
    (results : List Outcome) (now : Nat)
    (hnd : (results.map (fun r => r.email)).Nodup) :
    (recordAccounting db results now).length = db.length
    ∧ ∀ i s, db.get? i = some s →
        ((∃ r ∈ results, r.email = s.email ∧ r.success = true) →
            (recordAccounting db results now).get? i =
              some { s with emailCount := s.emailCount + 1,
                            lastEmailSent := some now })
        ∧ ((∃ r ∈ results, r.email = s.email ∧ r.success = false) →
            (recordAccounting db results now).get? i = some s)
        ∧ ((∀ r ∈ results, r.email ≠ s.email) →
            (recordAccounting db results now).get? i = some s) := by
  constructor
  · simp [recordAccounting]
  · intro i s hget
    have hmap : (recordAccounting db results now).get? i =
        (db.get? i).map (fun s =>
          if ((successfulResults results).map (fun r => r.email)).contains s.email
          then { s with emailCount := s.emailCount + 1, lastEmailSent := some now }
          else s) := by
      simp [recordAccounting, List.get?_eq_getElem?, List.getElem?_map]
    rw [hget] at hmap
    refine ⟨?_, ?_, ?_⟩
    · intro hsucc
      have hc : ((successfulResults results).map (fun r => r.email)).contains s.email = true := by
        have : s.email ∈ (successfulResults results).map (fun r => r.email) :=
          mem_successEmails.mpr hsucc
        simpa using this
      rw [hmap, Option.map_some', if_pos hc]
    · rintro ⟨r, hr, he, hs⟩
      have hc : ((successfulResults results).map (fun r => r.email)).contains s.email = false := by
        by_contra hcon
        have hm : s.email ∈ (successfulResults results).map (fun r => r.email) := by
          have := Bool.of_not_eq_false hcon
          simpa using this
        obtain ⟨r', hr', he', hs'⟩ := mem_successEmails.mp hm
        have : r' = r := List.inj_on_of_nodup_map hnd hr' hr (by rw [he', he])
        rw [this] at hs'
        rw [hs] at hs'
        exact Bool.false_ne_true hs'
      rw [hmap, Option.map_some', if_neg (by rw [hc]; exact Bool.false_ne_true)]
    · intro hnone
      have hc : ((successfulResults results).map (fun r => r.email)).contains s.email = false := by
        by_contra hcon
        have hm : s.email ∈ (successfulResults results).map (fun r => r.email) := by
          have := Bool.of_not_eq_false hcon
          simpa using this
        obtain ⟨r', hr', he', _⟩ := mem_successEmails.mp hm
        exact hnone r' hr' he'
      rw [hmap, Option.map_some', if_neg (by rw [hc]; exact Bool.false_ne_true)]

/-- Records for the C5 witness: the spec's three-recipient scenario. -/
def c5A : Subscriber :=
  { email := "a@x.com", name := none, interests := ["all"], isActive := true,
    subscriptionDate := 0, lastEmailSent := none, emailCount := 4 }

/-- Second record for the C5 witness. -/
def c5B : Subscriber :=
  { email := "b@x.com", name := none, interests := ["all"], isActive := true,
    subscriptionDate := 0, lastEmailSent := none, emailCount := 2 }

/-- Outcomes for the C5 witness: success for `a`, failure for `b`. -/
def c5results : List Outcome :=
  [.ok "a@x.com" "m1", .failed "b@x.com" "boom"]

/-- C5 witness: the successful record is incremented and stamped, the
failed record is returned unchanged. -/
theorem accounting_updates_exactly_successes_witness :
    (recordAccounting [c5A, c5B] c5results 7).get? 0 =
        some { c5A with emailCount := c5A.emailCount + 1, lastEmailSent := some 7 }
    ∧ (recordAccounting [c5A, c5B] c5results 7).get? 1 = some c5B := by
  have h := accounting_updates_exactly_successes [c5A, c5B] c5results 7 (by decide)
  refine ⟨(h.2 0 c5A rfl).1 ?_, ((h.2 1 c5B rfl).2.1 ?_)⟩
  · exact ⟨.ok "a@x.com" "m1", by decide, rfl, rfl⟩
  · exact ⟨.failed "b@x.com" "boom", by decide, rfl, rfl⟩

/-- C6: subscribing with the email of an existing inactive record
reactivates that record in place — same position, same email — sets
`isActive := true`, overwrites `name`/`interests` exactly when values are
supplied (a validated name is never the empty string) and keeps them
otherwise, resets `subscriptionDate` to now, preserves the delivery
counters, returns the reactivated record, and never creates a second
record (the store's length is unchanged). -/
theorem reactivation_in_place (db : List Subscriber) (now : Nat) (email : String)
    (name : Option String) (interests : Option (List String))
    (transporter : Except String Unit) (gw : String → Except String String)
    (s : Subscriber) (hf : findOne db email = some s)
    (hin : s.isActive = false) (hname : name ≠ some "") :
    ∃ i s', i < db.length ∧ db.get? i = some s ∧
      subscribe db now email name interests transporter gw =
        (.reactivated s'.email s'.name s'.interests, db.set i s') ∧
      s'.email = s.email ∧ s'.isActive = true ∧ s'.subscriptionDate = now ∧
      s'.name = (match name with | some n => some n | none => s.name) ∧
      s'.interests = (match interests with | some l => l | none => s.interests) ∧
      s'.lastEmailSent = s.lastEmailSent ∧ s'.emailCount = s.emailCount ∧
      (db.set i s').length = db.length := by
  have he : (Subscriber.mk s.email (orSuppliedName name s.name)
      (orSuppliedInterests interests s.interests) true now s.lastEmailSent
      s.emailCount).email = s.email := rfl
  obtain ⟨i, hi, hg, hr⟩ := replaceByEmail_of_findOne hf _ he
  refine ⟨i, Subscriber.mk s.email (orSuppliedName name s.name)
      (orSuppliedInterests interests s.interests) true now s.lastEmailSent
      s.emailCount, hi, hg, ?_, rfl, rfl, rfl, ?_, ?_, rfl, rfl, by simp⟩
  · unfold subscribe
    rw [hf]
    simp only [hin, Bool.false_eq_true, if_false]
    rw [← hr]
  · cases name with
    | none => rfl
    | some n =>
      have hne : n ≠ "" := fun h => hname (by rw [h])
      simp [orSuppliedName, hne]
  · cases interests <;> rfl

/-- The inactive record for the C6 witness. -/
def c6rec : Subscriber :=
  { email := "a@x.com", name := some "Old", interests := ["all"],
    isActive := false, subscriptionDate := 2, lastEmailSent := some 3,
    emailCount := 5 }

/-- C6 witness: the reactivation theorem at a concrete inactive record,
with a new name and new interests supplied. -/
theorem reactivation_in_place_witness :
    ∃ i s', i < [c6rec].length ∧ [c6rec].get? i = some c6rec ∧
      subscribe [c6rec] 9 "a@x.com" (some "Ann") (some ["cyber-security"])
          (.ok ()) (fun _ => .error "smtp down") =
        (.reactivated s'.email s'.name s'.interests, [c6rec].set i s') ∧
      s'.email = c6rec.email ∧ s'.isActive = true ∧ s'.subscriptionDate = 9 ∧
      s'.name = (match some "Ann" with | some n => some n | none => c6rec.name) ∧
      s'.interests = (match some ["cyber-security"] with
        | some l => l | none => c6rec.interests) ∧
      s'.lastEmailSent = c6rec.lastEmailSent ∧ s'.emailCount = c6rec.emailCount ∧
      ([c6rec].set i s').length = [c6rec].length :=
  reactivation_in_place [c6rec] 9 "a@x.com" (some "Ann") (some ["cyber-security"])
    (.ok ()) (fun _ => .error "smtp down") c6rec rfl rfl (by decide)

/-- C7: `unsubscribe` reports `notFound` exactly when no record has the
email; on an already-inactive record it succeeds with
`alreadyUnsubscribed` and changes nothing; on an active record it flips
`isActive` to false in place and confirms; and whenever a record exists,
a repeated call never errors, returns `alreadyUnsubscribed`, changes
nothing further, and the stored record stays inactive. -/
theorem unsubscribe_cases_idempotent (db : List Subscriber) (email : String) :
    ((unsubscribe db email).1 = .notFound ↔ findOne db email = none)
    ∧ ((unsubscribe db email).1 = .notFound → (unsubscribe db email).2 = db)
    ∧ (∀ s, findOne db email = some s → s.isActive = false →
        unsubscribe db email = (.alreadyUnsubscribed, db))
    ∧ (∀ s, findOne db email = some s → s.isActive = true →
        ∃ i, i < db.length ∧ db.get? i = some s ∧
          unsubscribe db email = (.unsubscribed, db.set i { s with isActive := false }))
    ∧ (∀ s, findOne db email = some s →
        unsubscribe (unsubscribe db email).2 email =
          (.alreadyUnsubscribed, (unsubscribe db email).2)
        ∧ ∀ t, findOne (unsubscribe db email).2 email = some t →
            t.isActive = false) := by
  cases hf : findOne db email with
  | none =>
    have hu : unsubscribe db email = (.notFound, db) := by
      unfold unsubscribe
      rw [hf]
    refine ⟨by simp [hu], by simp [hu], ?_, ?_, ?_⟩
    · intro s hs
      simp at hs
    · intro s hs
      simp at hs
    · intro s hs
      simp at hs
  | some s =>
    cases hact : s.isActive with
    | false =>
      have hu : unsubscribe db email = (.alreadyUnsubscribed, db) := by
        unfold unsubscribe
        rw [hf]
        simp [hact]
      refine ⟨by simp [hu], by simp [hu], ?_, ?_, ?_⟩
      · intro s0 _ _
        exact hu
      · intro s0 hs0 hact0
        have hss : s = s0 := by injection hs0
        rw [← hss, hact] at hact0
        exact absurd hact0 (by simp)
      · intro s0 _
        rw [hu]
        refine ⟨hu, ?_⟩
        intro t ht
        have ht' : findOne db email = some t := ht
        rw [hf] at ht'
        have hst : s = t := by injection ht'
        rw [← hst]
        exact hact
    | true =>
      obtain ⟨i, hi, hg, hr⟩ :=
        replaceByEmail_of_findOne hf { s with isActive := false } rfl
      have hu : unsubscribe db email =
          (.unsubscribed, replaceByEmail db { s with isActive := false }) := by
        unfold unsubscribe
        rw [hf]
        simp [hact]
      have hf2 : findOne (replaceByEmail db { s with isActive := false }) email =
          some { s with isActive := false } :=
        findOne_replaceByEmail hf rfl
      refine ⟨by simp [hu], by simp [hu], ?_, ?_, ?_⟩
      · intro s0 hs0 hact0
        have hss : s = s0 := by injection hs0
        rw [← hss, hact] at hact0
        exact absurd hact0 (by simp)
      · intro s0 hs0 _
        have hss : s = s0 := by injection hs0
        rw [← hss]
        exact ⟨i, hi, hg, by rw [hu, hr]⟩
      · intro s0 _
        rw [hu]
        constructor
        · show unsubscribe (replaceByEmail db { s with isActive := false }) email =
            (.alreadyUnsubscribed, replaceByEmail db { s with isActive := false })
          unfold unsubscribe
          rw [hf2]
          simp
        · intro t ht
          have ht' : findOne (replaceByEmail db { s with isActive := false }) email =
              some t := ht
          rw [hf2] at ht'
          have hst : { s with isActive := false } = t := by injection ht'
          rw [← hst]

/-- The active record for the C7 witness. -/
def c7rec : Subscriber :=
  { email := "a@x.com", name := none, interests := ["all"],
    isActive := true, subscriptionDate := 0, lastEmailSent := none,
    emailCount := 0 }

/-- C7 witness: unsubscribing the concrete active record flips it to
inactive in place. -/
theorem unsubscribe_cases_idempotent_witness :
    ∃ i, i < [c7rec].length ∧ [c7rec].get? i = some c7rec ∧
      unsubscribe [c7rec] "a@x.com" =
        (.unsubscribed, [c7rec].set i { c7rec with isActive := false }) :=
  (unsubscribe_cases_idempotent [c7rec] "a@x.com").2.2.2.1 c7rec rfl rfl

/-- Operations for the C3 counterexample: create a record, unsubscribe
it, then re-subscribe with an explicitly supplied EMPTY interests list —
which input validation accepts (`interests` must only be an array of
vocabulary tags). -/
def c3ops : List Op :=
  [.sub 0 "a@x.com" none none (.ok ()) (fun _ => .ok "mid"),
   .unsub "a@x.com",
   .sub 1 "a@x.com" none (some []) (.ok ()) (fun _ => .ok "mid")]

/-- C3 counterexample: after the sequence subscribe → unsubscribe →
subscribe-with-empty-interests, the record exists and its interests set
IS empty: a supplied empty array is truthy in JS, so reactivation
overwrites the stored interests with `[]`, and the pre-save default only
fires for new documents. -/
theorem empty_interests_reactivation_counterexample :
    runOps [] c3ops =
      [{ email := "a@x.com", name := none, interests := [],
         isActive := true, subscriptionDate := 1, lastEmailSent := none,
         emailCount := 0 }] := by
  rfl

/-- The `interests` argument a subscribe operation supplies, if any. -/
def subInterestsArg : Op → Option (List String)
  | .sub _ _ _ ints _ _ => ints
  | _ => none

/-- The pre-save hook leaves a new document with non-empty interests. -/
theorem preSaveNew_interests_ne_nil (s : Subscriber) :
    (preSaveNew s).interests ≠ [] := by
  cases hs : s.interests with
  | nil => simp [preSaveNew, hs]
  | cons a l => simp [preSaveNew, hs]

/-- One operation preserves non-emptiness of every record's interests,
provided a subscribe operation never supplies the empty list. -/
theorem applyOp_interests_nonempty {db : List Subscriber} {op : Op}
    (hdb : ∀ s ∈ db, s.interests ≠ [])
    (hop : subInterestsArg op ≠ some []) :
    ∀ s ∈ applyOp db op, s.interests ≠ [] := by
  cases op with
  | sub now email name ints t g =>
    intro s hs
    simp only [applyOp, subscribe] at hs
    cases hf : findOne db email with
    | none =>
      rw [hf] at hs
      simp only [List.mem_append, List.mem_singleton] at hs
      rcases hs with hs | hs
      · exact hdb s hs
      · rw [hs]
        exact preSaveNew_interests_ne_nil _
    | some s0 =>
      rw [hf] at hs
      by_cases hact : s0.isActive
      · simp only [hact, if_true] at hs
        exact hdb s hs
      · simp only [hact, if_false] at hs
        rcases mem_replaceByEmail hs with hs' | hs'
        · rw [hs']
          show orSuppliedInterests ints s0.interests ≠ []
          cases hints : ints with
          | none =>
            show s0.interests ≠ []
            exact hdb s0 (findOne_eq_some hf).1
          | some l =>
            show l ≠ []
            intro hl
            rw [hints, hl] at hop
            exact hop rfl
        · exact hdb s hs'
  | unsub email =>
    intro s hs
    simp only [applyOp, unsubscribe] at hs
    cases hf : findOne db email with
    | none =>
      rw [hf] at hs
      exact hdb s hs
    | some s0 =>
      rw [hf] at hs
      by_cases hact : s0.isActive
      · simp only [hact, if_true] at hs
        rcases mem_replaceByEmail hs with hs' | hs'
        · rw [hs']
          show s0.interests ≠ []
          exact hdb s0 (findOne_eq_some hf).1
        · exact hdb s hs'
      · simp only [hact, if_false] at hs
        exact hdb s hs
  | account results now =>
    intro s hs
    simp only [applyOp, recordAccounting, List.mem_map] at hs
    obtain ⟨u, hu, hus⟩ := hs
    rw [← hus]
    by_cases hc : ((successfulResults results).map (fun r => r.email)).contains u.email
    · simp only [hc, if_true]
      exact hdb u hu
    · simp only [hc, if_false]
      exact hdb u hu

/-- C3 as amended: the non-empty-interests invariant holds across every
sequence of subscribe, reactivate, unsubscribe and delivery-accounting
operations PROVIDED no subscribe call supplies an explicitly empty
interests list — a caller-supplied empty list (which validation accepts)
is written through on reactivation and breaks the invariant. -/
theorem interests_nonempty_invariant (db : List Subscriber) (ops : List Op)
    (hdb : ∀ s ∈ db, s.interests ≠ [])
    (hops : ∀ op ∈ ops, subInterestsArg op ≠ some []) :
    ∀ s ∈ runOps db ops, s.interests ≠ [] := by
  induction ops generalizing db with
  | nil => simpa [runOps] using hdb
  | cons op rest ih =>
    show ∀ s ∈ runOps (applyOp db op) rest, s.interests ≠ []
    exact ih (applyOp db op)
      (applyOp_interests_nonempty hdb (hops op (List.mem_cons_self op rest)))
      (fun o ho => hops o (List.mem_cons_of_mem op ho))

/-- Operations for the C3 witness: create, unsubscribe, reactivate
without supplying interests. -/
def c3wops : List Op :=
  [.sub 0 "a@x.com" none none (.ok ()) (fun _ => .ok "mid"),
   .unsub "a@x.com",
   .sub 1 "a@x.com" (some "Ann") none (.ok ()) (fun _ => .ok "mid")]

/-- The record the C3 witness sequence produces. -/
def c3wrec : Subscriber :=
  { email := "a@x.com", name := some "Ann", interests := ["all"],
    isActive := true, subscriptionDate := 1, lastEmailSent := none,
    emailCount := 0 }

/-- C3 witness: the invariant, run on a concrete three-operation sequence
that creates, unsubscribes and reactivates without supplying interests,
applied to the concrete record the sequence produces. -/
theorem interests_nonempty_invariant_witness : c3wrec.interests ≠ [] :=
  interests_nonempty_invariant [] c3wops
    (by simp)
    (by intro op hop; fin_cases hop <;> simp [subInterestsArg])
    c3wrec (by decide)

end Newsletter
